import Mathlib

/-!
Verification of the lazy singleton client registry in `src/clients/mod.rs`
(ironbar). The registry (`Clients`) holds one optional slot per
single-instance client kind and a map from `music::ClientType` to handles
for the multi-instance music kind. Each accessor lazily constructs the
client on first access (`Option::get_or_insert_with` / `HashMap::entry().
or_insert_with`) and returns an `Arc` clone of the cached handle.

Embedding choices:
- An `Arc<Client>` handle is modelled by its identity, a `Nat` instance id;
  each constructor invocation allocates a fresh id from a `nextId` counter.
  Two handles are clones of the same `Arc` iff their ids are equal.
- The concrete client constructors (`wayland::Client::new`,
  `clipboard::Client::new`, `Compositor::create_workspace_client`,
  `music::create_client`, `system_tray::create_client`,
  `upower::create_display_proxy`) are external collaborators; the embedding
  records each invocation in a trace and allocates a fresh identity.
  `Compositor::create_workspace_client` is fallible (`Result`); its outcome
  is an environment parameter, and the `.expect("to be valid compositor")`
  panic is modelled as an `Except.error` carrying the expect message
  together with the underlying error.
- `music::ClientType` is an external enum used only as a key; it is
  modelled by `Nat`. The `HashMap` is modelled as an association list
  queried with `List.lookup`.
- `&mut self` state threading is explicit: every accessor takes and
  returns a `World` (registry state plus instrumentation).
-/

namespace IronbarClients

/-- `music::ClientType`: external key type for the multi-instance music
kind, modelled by its identity only. -/
abbrev ClientType := Nat

/-- The client kinds of the registry (fields of `Clients`). -/
inductive Kind
  | wayland
  | workspaces
  | clipboard
  | music
  | tray
  | upower
  deriving DecidableEq

/-- The `Clients` struct (`src/clients/mod.rs`, lines 17-30): one optional
slot per single-instance kind, and a key-to-handle map for music. Handles
are instance ids of the constructed clients. -/
structure Clients where
  wayland : Option Nat
  workspaces : Option Nat
  clipboard : Option Nat
  music : List (ClientType × Nat)
  tray : Option Nat
  upower : Option Nat
  deriving DecidableEq

/-- `Clients::new()` = `Self::default()`: every slot unset, music map
empty. -/
def Clients.new : Clients :=
  ⟨none, none, none, [], none, none⟩

/-- Registry state together with instrumentation: the trace of constructor
invocations (kind, and the sub-key for music) in invocation order, and the
fresh-identity counter. -/
structure World where
  clients : Clients
  trace : List (Kind × Option ClientType)
  nextId : Nat
  deriving DecidableEq

/-- The state right after `Clients::new()`. -/
def World.init : World :=
  ⟨Clients.new, [], 0⟩

/-- Environment: outcome of `Compositor::create_workspace_client()`, the
one fallible constructor (`Result`; `Err` carries the diagnostic). -/
structure Env where
  compositor : Except String Unit

/-- `Clients::wayland` (lines 37-41):
`self.wayland.get_or_insert_with(|| Arc::new(wayland::Client::new())).clone()`. -/
def World.wayland (w : World) : Nat × World :=
  match w.clients.wayland with
  | some h => (h, w)
  | none =>
    (w.nextId,
     { clients := { w.clients with wayland := some w.nextId },
       trace := w.trace ++ [(Kind.wayland, none)],
       nextId := w.nextId + 1 })

/-- `Clients::clipboard` (lines 43-50): first calls `self.wayland()`, then
`self.clipboard.get_or_insert_with(|| Arc::new(clipboard::Client::new(wayland))).clone()`. -/
def World.clipboard (w : World) : Nat × World :=
  match (w.wayland).2.clients.clipboard with
  | some h => (h, (w.wayland).2)
  | none =>
    ((w.wayland).2.nextId,
     { clients := { (w.wayland).2.clients with clipboard := some (w.wayland).2.nextId },
       trace := (w.wayland).2.trace ++ [(Kind.clipboard, none)],
       nextId := (w.wayland).2.nextId + 1 })

/-- `Clients::workspaces` (lines 52-60):
`self.workspaces.get_or_insert_with(|| Compositor::create_workspace_client().expect("to be valid compositor")).clone()`.
A failing construction panics before anything is stored; the panic is the
`Except.error` case, whose message is the expect message followed by the
underlying error. The failed invocation is still recorded in the trace. -/
def World.workspaces (w : World) (env : Env) : Except String Nat × World :=
  match w.clients.workspaces with
  | some h => (Except.ok h, w)
  | none =>
    match env.compositor with
    | Except.error e =>
      (Except.error ("to be valid compositor: " ++ e),
       { w with trace := w.trace ++ [(Kind.workspaces, none)] })
    | Except.ok _ =>
      (Except.ok w.nextId,
       { clients := { w.clients with workspaces := some w.nextId },
         trace := w.trace ++ [(Kind.workspaces, none)],
         nextId := w.nextId + 1 })

/-- `Clients::music` (lines 62-68):
`self.music.entry(client_type.clone()).or_insert_with(|| music::create_client(client_type)).clone()`. -/
def World.music (k : ClientType) (w : World) : Nat × World :=
  match w.clients.music.lookup k with
  | some h => (h, w)
  | none =>
    (w.nextId,
     { clients := { w.clients with music := (k, w.nextId) :: w.clients.music },
       trace := w.trace ++ [(Kind.music, some k)],
       nextId := w.nextId + 1 })

/-- `Clients::tray` (lines 70-79): `await_sync` runs the asynchronous
`system_tray::create_client()` to completion synchronously, so the accessor
is `self.tray.get_or_insert_with(|| Arc::new(...)).clone()`. -/
def World.tray (w : World) : Nat × World :=
  match w.clients.tray with
  | some h => (h, w)
  | none =>
    (w.nextId,
     { clients := { w.clients with tray := some w.nextId },
       trace := w.trace ++ [(Kind.tray, none)],
       nextId := w.nextId + 1 })

/-- `Clients::upower` (lines 81-88): like `tray`, with
`upower::create_display_proxy()`. -/
def World.upower (w : World) : Nat × World :=
  match w.clients.upower with
  | some h => (h, w)
  | none =>
    (w.nextId,
     { clients := { w.clients with upower := some w.nextId },
       trace := w.trace ++ [(Kind.upower, none)],
       nextId := w.nextId + 1 })

/-- One external accessor invocation on the registry. -/
inductive Op
  | wayland
  | workspaces
  | clipboard
  | music (k : ClientType)
  | tray
  | upower
  deriving DecidableEq

/-- Run one accessor: its result (the workspaces accessor may panic, the
others always succeed) and the successor state. -/
def step (env : Env) : Op → World → Except String Nat × World
  | Op.wayland, w => ((Except.ok (w.wayland).1 : Except String Nat), (w.wayland).2)
  | Op.workspaces, w => w.workspaces env
  | Op.clipboard, w => (Except.ok (w.clipboard).1, (w.clipboard).2)
  | Op.music k, w => (Except.ok (World.music k w).1, (World.music k w).2)
  | Op.tray, w => (Except.ok (w.tray).1, (w.tray).2)
  | Op.upower, w => (Except.ok (w.upower).1, (w.upower).2)

/-- Run a single-threaded sequence of accessor calls; a panic aborts the
sequence, yielding the state at the panic and the panic message. -/
def run (env : Env) : List Op → World → World × Option String
  | [], w => (w, none)
  | op :: ops, w =>
    match step env op w with
    | (Except.ok _, w') => run env ops w'
    | (Except.error e, w') => (w', some e)

/-- Number of constructor invocations recorded for a kind. -/
def ctorCount (k : Kind) (w : World) : Nat :=
  (w.trace.filter (fun e => e.1 == k)).length

/-- Number of music-constructor invocations recorded for one sub-key. -/
def musicCtorCount (key : ClientType) (w : World) : Nat :=
  (w.trace.filter (fun e => e.1 == Kind.music && e.2 == some key)).length

/-- Which kinds' accessors an operation invokes: each operation invokes its
own kind's accessor, and `Clients::clipboard` additionally invokes
`self.wayland()` (line 45). -/
def touches : Op → Kind → Bool
  | Op.wayland, k => k == Kind.wayland
  | Op.workspaces, k => k == Kind.workspaces
  | Op.clipboard, k => k == Kind.clipboard || k == Kind.wayland
  | Op.music _, k => k == Kind.music
  | Op.tray, k => k == Kind.tray
  | Op.upower, k => k == Kind.upower

/-- The slot of a single-instance kind (music is the map, handled apart). -/
def slotOf : Kind → Clients → Option Nat
  | Kind.wayland, c => c.wayland
  | Kind.workspaces, c => c.workspaces
  | Kind.clipboard, c => c.clipboard
  | Kind.music, _ => none
  | Kind.tray, c => c.tray
  | Kind.upower, c => c.upower

/-- Iterate a total accessor `n` times, collecting the returned handles. -/
def iterAcc (acc : World → Nat × World) : Nat → World → List Nat × World
  | 0, w => ([], w)
  | n + 1, w =>
    ((acc w).1 :: (iterAcc acc n (acc w).2).1, (iterAcc acc n (acc w).2).2)

/-- Iterate the fallible workspaces accessor `n` times. -/
def iterWs (env : Env) : Nat → World → List (Except String Nat) × World
  | 0, w => ([], w)
  | n + 1, w =>
    ((w.workspaces env).1 :: (iterWs env n (w.workspaces env).2).1,
     (iterWs env n (w.workspaces env).2).2)

/-- Run a sequence of music accessor calls, collecting returned handles. -/
def musicRun : List ClientType → World → List Nat × World
  | [], w => ([], w)
  | k :: ks, w =>
    ((World.music k w).1 :: (musicRun ks (World.music k w).2).1,
     (musicRun ks (World.music k w).2).2)

/-! Basic per-accessor lemmas: an accessor with its slot already set
returns the cached handle and leaves the state unchanged; a call leaves
its own slot set to the returned handle. -/

theorem wayland_stable {w : World} {h : Nat} (hs : w.clients.wayland = some h) :
    w.wayland = (h, w) := by
  unfold World.wayland
  rw [hs]

theorem wayland_sets (w : World) :
    (w.wayland).2.clients.wayland = some (w.wayland).1 := by
  unfold World.wayland
  cases hs : w.clients.wayland <;> simp [hs]

theorem wayland_idem (w : World) :
    (w.wayland).2.wayland = ((w.wayland).1, (w.wayland).2) :=
  wayland_stable (wayland_sets w)

theorem tray_stable {w : World} {h : Nat} (hs : w.clients.tray = some h) :
    w.tray = (h, w) := by
  unfold World.tray
  rw [hs]

theorem tray_sets (w : World) :
    (w.tray).2.clients.tray = some (w.tray).1 := by
  unfold World.tray
  cases hs : w.clients.tray <;> simp [hs]

theorem tray_idem (w : World) :
    (w.tray).2.tray = ((w.tray).1, (w.tray).2) :=
  tray_stable (tray_sets w)

theorem upower_stable {w : World} {h : Nat} (hs : w.clients.upower = some h) :
    w.upower = (h, w) := by
  unfold World.upower
  rw [hs]

theorem upower_sets (w : World) :
    (w.upower).2.clients.upower = some (w.upower).1 := by
  unfold World.upower
  cases hs : w.clients.upower <;> simp [hs]

theorem upower_idem (w : World) :
    (w.upower).2.upower = ((w.upower).1, (w.upower).2) :=
  upower_stable (upower_sets w)

theorem clipboard_stable {w : World} {hw h : Nat}
    (hwl : w.clients.wayland = some hw) (hc : w.clients.clipboard = some h) :
    w.clipboard = (h, w) := by
  unfold World.clipboard
  rw [wayland_stable hwl]
  simp [hc]

theorem clipboard_sets (w : World) :
    (w.clipboard).2.clients.clipboard = some (w.clipboard).1 := by
  unfold World.clipboard
  cases hs : (w.wayland).2.clients.clipboard <;> simp [hs]

theorem clipboard_keeps_wayland (w : World) :
    (w.clipboard).2.clients.wayland = some (w.wayland).1 := by
  unfold World.clipboard
  cases hs : (w.wayland).2.clients.clipboard <;> simp [hs, wayland_sets]

theorem clipboard_idem (w : World) :
    (w.clipboard).2.clipboard = ((w.clipboard).1, (w.clipboard).2) :=
  clipboard_stable (clipboard_keeps_wayland w) (clipboard_sets w)

theorem workspaces_stable {w : World} {h : Nat} (env : Env)
    (hs : w.clients.workspaces = some h) :
    w.workspaces env = (Except.ok h, w) := by
  unfold World.workspaces
  rw [hs]

theorem music_stable {w : World} {k : ClientType} {h : Nat}
    (hs : w.clients.music.lookup k = some h) :
    World.music k w = (h, w) := by
  unfold World.music
  rw [hs]

theorem music_sets (k : ClientType) (w : World) :
    (World.music k w).2.clients.music.lookup k = some (World.music k w).1 := by
  unfold World.music
  cases hs : w.clients.music.lookup k <;> simp [List.lookup, hs]

theorem music_idem (k : ClientType) (w : World) :
    World.music k (World.music k w).2 =
      ((World.music k w).1, (World.music k w).2) :=
  music_stable (music_sets k w)

/-! Iteration of an accessor from a fixpoint and from the initial state. -/

theorem iterAcc_fix (acc : World → Nat × World) (h : Nat) (w : World)
    (hfix : acc w = (h, w)) :
    ∀ n, iterAcc acc n w = (List.replicate n h, w) := by
  intro n
  induction n with
  | zero => rfl
  | succ n ih => simp [iterAcc, hfix, ih, List.replicate_succ]

theorem iterAcc_run (acc : World → Nat × World) (h : Nat) (w1 : World)
    (hfirst : acc World.init = (h, w1)) (hfix : acc w1 = (h, w1)) (n : Nat) :
    iterAcc acc (n + 1) World.init = (List.replicate (n + 1) h, w1) := by
  have h2 := iterAcc_fix acc h w1 hfix n
  simp [iterAcc, hfirst, h2, List.replicate_succ]

theorem iterWs_fix (env : Env) (h : Nat) (w : World)
    (hfix : w.workspaces env = (Except.ok h, w)) :
    ∀ n, iterWs env n w = (List.replicate n (Except.ok h), w) := by
  intro n
  induction n with
  | zero => rfl
  | succ n ih => simp [iterWs, hfix, ih, List.replicate_succ]

/-- The state after the first (successful) workspaces construction from the
initial state. -/
def wsWorld : World :=
  ⟨⟨none, some 0, none, [], none, none⟩, [(Kind.workspaces, none)], 1⟩

theorem ws_first {env : Env} (henv : env.compositor = Except.ok ()) :
    World.init.workspaces env = (Except.ok 0, wsWorld) := by
  unfold World.workspaces
  rw [show World.init.clients.workspaces = none from rfl, henv]
  rfl

theorem iterWs_run (env : Env) (henv : env.compositor = Except.ok ()) (n : Nat) :
    iterWs env (n + 1) World.init = (List.replicate (n + 1) (Except.ok 0), wsWorld) := by
  have hfix : wsWorld.workspaces env = (Except.ok 0, wsWorld) :=
    workspaces_stable env rfl
  have h2 := iterWs_fix env 0 wsWorld hfix n
  simp [iterWs, ws_first henv, h2, List.replicate_succ]

/-- The state after the first wayland construction from the initial state. -/
def wlWorld : World :=
  ⟨⟨some 0, none, none, [], none, none⟩, [(Kind.wayland, none)], 1⟩

/-- The state after the first clipboard access from the initial state: the
wayland client was constructed first (id 0), then the clipboard client
(id 1). -/
def cbWorld : World :=
  ⟨⟨some 0, none, some 1, [], none, none⟩,
   [(Kind.wayland, none), (Kind.clipboard, none)], 2⟩

/-- The state after the first tray construction from the initial state. -/
def trWorld : World :=
  ⟨⟨none, none, none, [], some 0, none⟩, [(Kind.tray, none)], 1⟩

/-- The state after the first upower construction from the initial state. -/
def upWorld : World :=
  ⟨⟨none, none, none, [], none, some 0⟩, [(Kind.upower, none)], 1⟩

/-- Claim C1: for every single-instance client kind (wayland, clipboard,
workspaces, tray, upower), calling that kind's accessor N times (N = n+1,
so N >= 1) on one fresh Clients value in a single-threaded sequence
returns N handles of identical underlying identity, and that kind's
constructor is invoked exactly once. -/
theorem claim_C1 (n : Nat) (env : Env) (henv : env.compositor = Except.ok ()) :
    (iterAcc World.wayland (n + 1) World.init).1 = List.replicate (n + 1) 0 ∧
    ctorCount Kind.wayland (iterAcc World.wayland (n + 1) World.init).2 = 1 ∧
    (iterAcc World.clipboard (n + 1) World.init).1 = List.replicate (n + 1) 1 ∧
    ctorCount Kind.clipboard (iterAcc World.clipboard (n + 1) World.init).2 = 1 ∧
    (iterWs env (n + 1) World.init).1 = List.replicate (n + 1) (Except.ok 0) ∧
    ctorCount Kind.workspaces (iterWs env (n + 1) World.init).2 = 1 ∧
    (iterAcc World.tray (n + 1) World.init).1 = List.replicate (n + 1) 0 ∧
    ctorCount Kind.tray (iterAcc World.tray (n + 1) World.init).2 = 1 ∧
    (iterAcc World.upower (n + 1) World.init).1 = List.replicate (n + 1) 0 ∧
    ctorCount Kind.upower (iterAcc World.upower (n + 1) World.init).2 = 1 := by
  have hwl := iterAcc_run World.wayland 0 wlWorld rfl rfl n
  have hcb := iterAcc_run World.clipboard 1 cbWorld rfl rfl n
  have hws := iterWs_run env henv n
  have htr := iterAcc_run World.tray 0 trWorld rfl rfl n
  have hup := iterAcc_run World.upower 0 upWorld rfl rfl n
  rw [hwl, hcb, hws, htr, hup]
  refine ⟨rfl, rfl, rfl, rfl, rfl, rfl, rfl, rfl, rfl, rfl⟩

/-- Witness for C1 at N = 2 with a succeeding compositor environment. -/
theorem claim_C1_witness :
    (iterAcc World.wayland 2 World.init).1 = List.replicate 2 0 ∧
    ctorCount Kind.wayland (iterAcc World.wayland 2 World.init).2 = 1 ∧
    (iterAcc World.clipboard 2 World.init).1 = List.replicate 2 1 ∧
    ctorCount Kind.clipboard (iterAcc World.clipboard 2 World.init).2 = 1 ∧
    (iterWs ⟨Except.ok ()⟩ 2 World.init).1 = List.replicate 2 (Except.ok 0) ∧
    ctorCount Kind.workspaces (iterWs ⟨Except.ok ()⟩ 2 World.init).2 = 1 ∧
    (iterAcc World.tray 2 World.init).1 = List.replicate 2 0 ∧
    ctorCount Kind.tray (iterAcc World.tray 2 World.init).2 = 1 ∧
    (iterAcc World.upower 2 World.init).1 = List.replicate 2 0 ∧
    ctorCount Kind.upower (iterAcc World.upower 2 World.init).2 = 1 :=
  claim_C1 1 ⟨Except.ok ()⟩ rfl

/-- Claim C4: invoking the clipboard accessor as the very first operation
on a fresh Clients value constructs the wayland client first (trace order),
then the clipboard client; afterwards both slots are set, and a subsequent
direct wayland call returns the very handle constructed as a side effect,
with the state unchanged (no second construction). -/
theorem claim_C4 :
    World.init.clipboard = (1, cbWorld) ∧
    cbWorld.trace = [(Kind.wayland, none), (Kind.clipboard, none)] ∧
    cbWorld.clients.wayland = some 0 ∧
    cbWorld.clients.clipboard = some 1 ∧
    cbWorld.wayland = (0, cbWorld) ∧
    ctorCount Kind.wayland cbWorld = 1 ∧
    ctorCount Kind.clipboard cbWorld = 1 := by
  refine ⟨rfl, rfl, rfl, rfl, rfl, rfl, rfl⟩

/-! Constructor counts are untouched by accessors of other kinds. -/

theorem wayland_ctorCount (w : World) (k : Kind) (hk : k ≠ Kind.wayland) :
    ctorCount k (w.wayland).2 = ctorCount k w := by
  simp only [ctorCount]
  unfold World.wayland
  cases hs : w.clients.wayland <;> simp [hs, List.filter_append, Ne.symm hk]

theorem clipboard_ctorCount (w : World) (k : Kind)
    (hk1 : k ≠ Kind.clipboard) (hk2 : k ≠ Kind.wayland) :
    ctorCount k (w.clipboard).2 = ctorCount k w := by
  have h2 := wayland_ctorCount w k hk2
  simp only [ctorCount] at h2 ⊢
  unfold World.clipboard
  cases hs : (w.wayland).2.clients.clipboard <;>
    simp [hs, List.filter_append, Ne.symm hk1, h2]

theorem workspaces_ctorCount (env : Env) (w : World) (k : Kind)
    (hk : k ≠ Kind.workspaces) :
    ctorCount k (w.workspaces env).2 = ctorCount k w := by
  simp only [ctorCount]
  unfold World.workspaces
  cases hs : w.clients.workspaces with
  | some h => simp [hs]
  | none =>
    cases he : env.compositor <;> simp [hs, he, List.filter_append, Ne.symm hk]

theorem music_ctorCount_ne (q : ClientType) (w : World) (k : Kind)
    (hk : k ≠ Kind.music) :
    ctorCount k (World.music q w).2 = ctorCount k w := by
  simp only [ctorCount]
  unfold World.music
  cases hs : w.clients.music.lookup q <;>
    simp [hs, List.filter_append, Ne.symm hk]

theorem tray_ctorCount (w : World) (k : Kind) (hk : k ≠ Kind.tray) :
    ctorCount k (w.tray).2 = ctorCount k w := by
  simp only [ctorCount]
  unfold World.tray
  cases hs : w.clients.tray <;> simp [hs, List.filter_append, Ne.symm hk]

theorem upower_ctorCount (w : World) (k : Kind) (hk : k ≠ Kind.upower) :
    ctorCount k (w.upower).2 = ctorCount k w := by
  simp only [ctorCount]
  unfold World.upower
  cases hs : w.clients.upower <;> simp [hs, List.filter_append, Ne.symm hk]

/-- A step whose operation does not invoke kind `k`'s accessor leaves `k`'s
constructor count unchanged. -/
theorem step_ctorCount (env : Env) (op : Op) (w : World) (k : Kind)
    (hk : touches op k = false) :
    ctorCount k (step env op w).2 = ctorCount k w := by
  cases op with
  | wayland =>
    simp only [touches, beq_eq_false_iff_ne, ne_eq] at hk
    simpa [step] using wayland_ctorCount w k hk
  | workspaces =>
    simp only [touches, beq_eq_false_iff_ne, ne_eq] at hk
    simpa [step] using workspaces_ctorCount env w k hk
  | clipboard =>
    simp only [touches, Bool.or_eq_false_iff, beq_eq_false_iff_ne, ne_eq] at hk
    simpa [step] using clipboard_ctorCount w k hk.1 hk.2
  | music q =>
    simp only [touches, beq_eq_false_iff_ne, ne_eq] at hk
    simpa [step] using music_ctorCount_ne q w k hk
  | tray =>
    simp only [touches, beq_eq_false_iff_ne, ne_eq] at hk
    simpa [step] using tray_ctorCount w k hk
  | upower =>
    simp only [touches, beq_eq_false_iff_ne, ne_eq] at hk
    simpa [step] using upower_ctorCount w k hk

/-- Over a whole sequence of operations, none of which invokes kind `k`'s
accessor, `k`'s constructor count is unchanged. -/
theorem run_ctorCount (env : Env) (k : Kind) :
    ∀ (ops : List Op) (w : World), (∀ op ∈ ops, touches op k = false) →
      ctorCount k (run env ops w).1 = ctorCount k w := by
  intro ops
  induction ops with
  | nil => intro w _; rfl
  | cons op ops ih =>
    intro w h
    have hop : touches op k = false := h op (List.mem_cons_self op ops)
    have hrest : ∀ o ∈ ops, touches o k = false :=
      fun o ho => h o (List.mem_cons_of_mem op ho)
    have hstepc := step_ctorCount env op w k hop
    show ctorCount k (run env (op :: ops) w).1 = ctorCount k w
    unfold run
    rcases hstep : step env op w with ⟨r, w'⟩
    rw [hstep] at hstepc
    cases r with
    | ok h' => simp [ih w' hrest, hstepc]
    | error e => simpa using hstepc

/-- Claim C3: a Clients value created via new() starts with every
single-instance slot unset, the music map empty, and an empty construction
trace; and for every kind K, running any single-threaded sequence of
accessor calls none of which invokes K's accessor (clipboard counts as
invoking wayland's accessor, line 45) leaves K's constructor never
invoked. -/
theorem claim_C3 :
    Clients.new.wayland = none ∧ Clients.new.workspaces = none ∧
    Clients.new.clipboard = none ∧ Clients.new.music = [] ∧
    Clients.new.tray = none ∧ Clients.new.upower = none ∧
    World.init.trace = [] ∧
    ∀ (env : Env) (ops : List Op) (k : Kind),
      (∀ op ∈ ops, touches op k = false) →
      ctorCount k (run env ops World.init).1 = 0 := by
  refine ⟨rfl, rfl, rfl, rfl, rfl, rfl, rfl, ?_⟩
  intro env ops k h
  simpa using run_ctorCount env k ops World.init h

/-- Witness for C3: a sequence querying tray, music and upower never
invokes the wayland constructor. -/
theorem claim_C3_witness :
    ctorCount Kind.wayland
      (run ⟨Except.ok ()⟩ [Op.tray, Op.music 5, Op.upower] World.init).1 = 0 :=
  claim_C3.2.2.2.2.2.2.2 ⟨Except.ok ()⟩ [Op.tray, Op.music 5, Op.upower]
    Kind.wayland (by decide)

/-! Slot monotonicity: a set slot (or music entry) is never cleared,
evicted or replaced. -/

/-- Entry preservation between registry states: every single-instance slot
that is set keeps its handle, and every music entry keeps its handle. -/
def Preserves (c c' : Clients) : Prop :=
  (∀ h, c.wayland = some h → c'.wayland = some h) ∧
  (∀ h, c.workspaces = some h → c'.workspaces = some h) ∧
  (∀ h, c.clipboard = some h → c'.clipboard = some h) ∧
  (∀ h, c.tray = some h → c'.tray = some h) ∧
  (∀ h, c.upower = some h → c'.upower = some h) ∧
  (∀ q h, c.music.lookup q = some h → c'.music.lookup q = some h)

theorem Preserves.rfl (c : Clients) : Preserves c c :=
  ⟨fun _ hh => hh, fun _ hh => hh, fun _ hh => hh, fun _ hh => hh,
   fun _ hh => hh, fun _ _ hh => hh⟩

theorem Preserves.trans {a b c : Clients}
    (h1 : Preserves a b) (h2 : Preserves b c) : Preserves a c :=
  ⟨fun h hh => h2.1 h (h1.1 h hh),
   fun h hh => h2.2.1 h (h1.2.1 h hh),
   fun h hh => h2.2.2.1 h (h1.2.2.1 h hh),
   fun h hh => h2.2.2.2.1 h (h1.2.2.2.1 h hh),
   fun h hh => h2.2.2.2.2.1 h (h1.2.2.2.2.1 h hh),
   fun q h hh => h2.2.2.2.2.2 q h (h1.2.2.2.2.2 q h hh)⟩

theorem wayland_preserves (w : World) :
    Preserves w.clients (w.wayland).2.clients := by
  unfold World.wayland
  cases hs : w.clients.wayland with
  | some h => exact Preserves.rfl _
  | none =>
    exact ⟨fun h hh => by simp [hs] at hh, fun h hh => hh, fun h hh => hh,
           fun h hh => hh, fun h hh => hh, fun q h hh => hh⟩

theorem clipboard_preserves (w : World) :
    Preserves w.clients (w.clipboard).2.clients := by
  refine Preserves.trans (wayland_preserves w) ?_
  unfold World.clipboard
  cases hs : (w.wayland).2.clients.clipboard with
  | some h => exact Preserves.rfl _
  | none =>
    exact ⟨fun h hh => hh, fun h hh => hh, fun h hh => by simp [hs] at hh,
           fun h hh => hh, fun h hh => hh, fun q h hh => hh⟩

theorem workspaces_preserves (env : Env) (w : World) :
    Preserves w.clients (w.workspaces env).2.clients := by
  unfold World.workspaces
  cases hs : w.clients.workspaces with
  | some h => exact Preserves.rfl _
  | none =>
    cases he : env.compositor with
    | error e => exact Preserves.rfl _
    | ok u =>
      exact ⟨fun h hh => hh, fun h hh => by simp [hs] at hh, fun h hh => hh,
             fun h hh => hh, fun h hh => hh, fun q h hh => hh⟩

theorem music_preserves (q : ClientType) (w : World) :
    Preserves w.clients (World.music q w).2.clients := by
  unfold World.music
  cases hs : w.clients.music.lookup q with
  | some h => exact Preserves.rfl _
  | none =>
    refine ⟨fun h hh => hh, fun h hh => hh, fun h hh => hh,
            fun h hh => hh, fun h hh => hh, fun key h hh => ?_⟩
    by_cases hkey : key = q
    · subst hkey
      rw [hh] at hs
      exact Option.noConfusion hs
    · have hb : (key == q) = false := by simp [hkey]
      simpa [List.lookup, hb] using hh

theorem tray_preserves (w : World) :
    Preserves w.clients (w.tray).2.clients := by
  unfold World.tray
  cases hs : w.clients.tray with
  | some h => exact Preserves.rfl _
  | none =>
    exact ⟨fun h hh => hh, fun h hh => hh, fun h hh => hh,
           fun h hh => by simp [hs] at hh, fun h hh => hh, fun q h hh => hh⟩

theorem upower_preserves (w : World) :
    Preserves w.clients (w.upower).2.clients := by
  unfold World.upower
  cases hs : w.clients.upower with
  | some h => exact Preserves.rfl _
  | none =>
    exact ⟨fun h hh => hh, fun h hh => hh, fun h hh => hh,
           fun h hh => hh, fun h hh => by simp [hs] at hh, fun q h hh => hh⟩

theorem step_preserves (env : Env) (op : Op) (w : World) :
    Preserves w.clients (step env op w).2.clients := by
  cases op with
  | wayland => simpa [step] using wayland_preserves w
  | workspaces => simpa [step] using workspaces_preserves env w
  | clipboard => simpa [step] using clipboard_preserves w
  | music q => simpa [step] using music_preserves q w
  | tray => simpa [step] using tray_preserves w
  | upower => simpa [step] using upower_preserves w

theorem run_preserves (env : Env) :
    ∀ (ops : List Op) (w : World), Preserves w.clients (run env ops w).1.clients := by
  intro ops
  induction ops with
  | nil => intro w; exact Preserves.rfl _
  | cons op ops ih =>
    intro w
    have hstepp := step_preserves env op w
    show Preserves w.clients (run env (op :: ops) w).1.clients
    unfold run
    rcases hstep : step env op w with ⟨r, w'⟩
    rw [hstep] at hstepp
    cases r with
    | ok h => exact Preserves.trans hstepp (ih w')
    | error e => exact hstepp

/-- On success, the workspaces accessor leaves its slot set to the
returned handle. -/
theorem workspaces_sets {env : Env} (henv : env.compositor = Except.ok ())
    (w : World) :
    ∃ h, (w.workspaces env).1 = Except.ok h ∧
      (w.workspaces env).2.clients.workspaces = some h := by
  unfold World.workspaces
  cases hs : w.clients.workspaces with
  | some h => exact ⟨h, rfl, hs⟩
  | none =>
    rw [henv]
    exact ⟨w.nextId, rfl, by simp⟩

/-- Claim C6: every kind's slot (and every music entry) transitions from
unset to set exactly once and never back: no sequence of accessor calls
ever clears, evicts or replaces a slot or music entry once set (first
conjunct), and each kind's (successful) accessor leaves its own slot set
to the handle it returns (remaining conjuncts). -/
theorem claim_C6 :
    (∀ (env : Env) (ops : List Op) (w : World),
        Preserves w.clients (run env ops w).1.clients) ∧
    (∀ w : World, (w.wayland).2.clients.wayland = some (w.wayland).1) ∧
    (∀ w : World, (w.clipboard).2.clients.clipboard = some (w.clipboard).1) ∧
    (∀ (env : Env) (w : World), env.compositor = Except.ok () →
        ∃ h, (w.workspaces env).1 = Except.ok h ∧
          (w.workspaces env).2.clients.workspaces = some h) ∧
    (∀ (q : ClientType) (w : World),
        (World.music q w).2.clients.music.lookup q = some (World.music q w).1) ∧
    (∀ w : World, (w.tray).2.clients.tray = some (w.tray).1) ∧
    (∀ w : World, (w.upower).2.clients.upower = some (w.upower).1) :=
  ⟨fun env ops w => run_preserves env ops w,
   wayland_sets, clipboard_sets,
   fun _ w henv => workspaces_sets henv w,
   music_sets, tray_sets, upower_sets⟩

/-- A concrete registry state with a wayland handle and a music entry
already cached, used to witness preservation. -/
def w0 : World :=
  ⟨⟨some 7, none, none, [(3, 4)], none, none⟩, [], 8⟩

/-- Witness for C6: the cached wayland handle 7 and music entry (3, 4) of
`w0` survive a tray, music and workspaces access sequence. -/
theorem claim_C6_witness :
    (run ⟨Except.ok ()⟩ [Op.tray, Op.music 9, Op.workspaces] w0).1.clients.wayland
        = some 7 ∧
    (run ⟨Except.ok ()⟩ [Op.tray, Op.music 9, Op.workspaces] w0).1.clients.music.lookup 3
        = some 4 ∧
    ∃ h, (w0.workspaces ⟨Except.ok ()⟩).1 = Except.ok h ∧
      (w0.workspaces ⟨Except.ok ()⟩).2.clients.workspaces = some h :=
  ⟨(claim_C6.1 ⟨Except.ok ()⟩ [Op.tray, Op.music 9, Op.workspaces] w0).1 7 rfl,
   (claim_C6.1 ⟨Except.ok ()⟩ [Op.tray, Op.music 9, Op.workspaces] w0).2.2.2.2.2 3 4
     (by decide),
   claim_C6.2.2.2.1 ⟨Except.ok ()⟩ w0 rfl⟩

/-! Frame conditions: each accessor leaves every other kind's storage
untouched (clipboard excepted, which may also set wayland). -/

theorem wayland_frame (w : World) :
    (w.wayland).2.clients.workspaces = w.clients.workspaces ∧
    (w.wayland).2.clients.clipboard = w.clients.clipboard ∧
    (w.wayland).2.clients.music = w.clients.music ∧
    (w.wayland).2.clients.tray = w.clients.tray ∧
    (w.wayland).2.clients.upower = w.clients.upower := by
  unfold World.wayland
  cases hs : w.clients.wayland <;> simp

theorem clipboard_frame (w : World) :
    (w.clipboard).2.clients.workspaces = w.clients.workspaces ∧
    (w.clipboard).2.clients.music = w.clients.music ∧
    (w.clipboard).2.clients.tray = w.clients.tray ∧
    (w.clipboard).2.clients.upower = w.clients.upower := by
  obtain ⟨h1, _, h3, h4, h5⟩ := wayland_frame w
  unfold World.clipboard
  cases hs : (w.wayland).2.clients.clipboard <;> simp [h1, h3, h4, h5]

theorem workspaces_frame (env : Env) (w : World) :
    (w.workspaces env).2.clients.wayland = w.clients.wayland ∧
    (w.workspaces env).2.clients.clipboard = w.clients.clipboard ∧
    (w.workspaces env).2.clients.music = w.clients.music ∧
    (w.workspaces env).2.clients.tray = w.clients.tray ∧
    (w.workspaces env).2.clients.upower = w.clients.upower := by
  unfold World.workspaces
  cases hs : w.clients.workspaces with
  | some h => simp
  | none => cases he : env.compositor <;> simp

theorem music_frame (q : ClientType) (w : World) :
    (World.music q w).2.clients.wayland = w.clients.wayland ∧
    (World.music q w).2.clients.workspaces = w.clients.workspaces ∧
    (World.music q w).2.clients.clipboard = w.clients.clipboard ∧
    (World.music q w).2.clients.tray = w.clients.tray ∧
    (World.music q w).2.clients.upower = w.clients.upower := by
  unfold World.music
  cases hs : w.clients.music.lookup q <;> simp

theorem music_frame_entries (q : ClientType) (w : World) (key : ClientType)
    (hkey : key ≠ q) :
    (World.music q w).2.clients.music.lookup key = w.clients.music.lookup key := by
  unfold World.music
  have hb : (key == q) = false := by simp [hkey]
  cases hs : w.clients.music.lookup q <;> simp [List.lookup, hb]

theorem tray_frame (w : World) :
    (w.tray).2.clients.wayland = w.clients.wayland ∧
    (w.tray).2.clients.workspaces = w.clients.workspaces ∧
    (w.tray).2.clients.clipboard = w.clients.clipboard ∧
    (w.tray).2.clients.music = w.clients.music ∧
    (w.tray).2.clients.upower = w.clients.upower := by
  unfold World.tray
  cases hs : w.clients.tray <;> simp

theorem upower_frame (w : World) :
    (w.upower).2.clients.wayland = w.clients.wayland ∧
    (w.upower).2.clients.workspaces = w.clients.workspaces ∧
    (w.upower).2.clients.clipboard = w.clients.clipboard ∧
    (w.upower).2.clients.music = w.clients.music ∧
    (w.upower).2.clients.tray = w.clients.tray := by
  unfold World.upower
  cases hs : w.clients.upower <;> simp

/-- Claim C10 (frame condition): every accessor call mutates at most its
own kind's storage — for music, at most the entry for the given sub-key —
leaving every other kind's slot and every other music entry unchanged,
with the single exception that the clipboard accessor may additionally set
the wayland slot; and no accessor replaces a handle already issued (a set
slot keeps its exact handle across the accessor, so issued handles are
never remapped). -/
theorem claim_C10 :
    (∀ w : World,
      (w.wayland).2.clients.workspaces = w.clients.workspaces ∧
      (w.wayland).2.clients.clipboard = w.clients.clipboard ∧
      (w.wayland).2.clients.music = w.clients.music ∧
      (w.wayland).2.clients.tray = w.clients.tray ∧
      (w.wayland).2.clients.upower = w.clients.upower ∧
      (∀ h, w.clients.wayland = some h → (w.wayland).2.clients.wayland = some h)) ∧
    (∀ w : World,
      (w.clipboard).2.clients.workspaces = w.clients.workspaces ∧
      (w.clipboard).2.clients.music = w.clients.music ∧
      (w.clipboard).2.clients.tray = w.clients.tray ∧
      (w.clipboard).2.clients.upower = w.clients.upower ∧
      (∀ h, w.clients.clipboard = some h → (w.clipboard).2.clients.clipboard = some h) ∧
      (∀ h, w.clients.wayland = some h → (w.clipboard).2.clients.wayland = some h)) ∧
    (∀ (env : Env) (w : World),
      (w.workspaces env).2.clients.wayland = w.clients.wayland ∧
      (w.workspaces env).2.clients.clipboard = w.clients.clipboard ∧
      (w.workspaces env).2.clients.music = w.clients.music ∧
      (w.workspaces env).2.clients.tray = w.clients.tray ∧
      (w.workspaces env).2.clients.upower = w.clients.upower ∧
      (∀ h, w.clients.workspaces = some h →
        (w.workspaces env).2.clients.workspaces = some h)) ∧
    (∀ (q : ClientType) (w : World),
      (World.music q w).2.clients.wayland = w.clients.wayland ∧
      (World.music q w).2.clients.workspaces = w.clients.workspaces ∧
      (World.music q w).2.clients.clipboard = w.clients.clipboard ∧
      (World.music q w).2.clients.tray = w.clients.tray ∧
      (World.music q w).2.clients.upower = w.clients.upower ∧
      (∀ key, key ≠ q →
        (World.music q w).2.clients.music.lookup key = w.clients.music.lookup key) ∧
      (∀ key h, w.clients.music.lookup key = some h →
        (World.music q w).2.clients.music.lookup key = some h)) ∧
    (∀ w : World,
      (w.tray).2.clients.wayland = w.clients.wayland ∧
      (w.tray).2.clients.workspaces = w.clients.workspaces ∧
      (w.tray).2.clients.clipboard = w.clients.clipboard ∧
      (w.tray).2.clients.music = w.clients.music ∧
      (w.tray).2.clients.upower = w.clients.upower ∧
      (∀ h, w.clients.tray = some h → (w.tray).2.clients.tray = some h)) ∧
    (∀ w : World,
      (w.upower).2.clients.wayland = w.clients.wayland ∧
      (w.upower).2.clients.workspaces = w.clients.workspaces ∧
      (w.upower).2.clients.clipboard = w.clients.clipboard ∧
      (w.upower).2.clients.music = w.clients.music ∧
      (w.upower).2.clients.tray = w.clients.tray ∧
      (∀ h, w.clients.upower = some h → (w.upower).2.clients.upower = some h)) := by
  refine ⟨fun w => ?_, fun w => ?_, fun env w => ?_, fun q w => ?_,
          fun w => ?_, fun w => ?_⟩
  · obtain ⟨h1, h2, h3, h4, h5⟩ := wayland_frame w
    exact ⟨h1, h2, h3, h4, h5, (wayland_preserves w).1⟩
  · obtain ⟨h1, h2, h3, h4⟩ := clipboard_frame w
    exact ⟨h1, h2, h3, h4, (clipboard_preserves w).2.2.1, (clipboard_preserves w).1⟩
  · obtain ⟨h1, h2, h3, h4, h5⟩ := workspaces_frame env w
    exact ⟨h1, h2, h3, h4, h5, (workspaces_preserves env w).2.1⟩
  · obtain ⟨h1, h2, h3, h4, h5⟩ := music_frame q w
    exact ⟨h1, h2, h3, h4, h5, music_frame_entries q w,
           (music_preserves q w).2.2.2.2.2⟩
  · obtain ⟨h1, h2, h3, h4, h5⟩ := tray_frame w
    exact ⟨h1, h2, h3, h4, h5, (tray_preserves w).2.2.2.1⟩
  · obtain ⟨h1, h2, h3, h4, h5⟩ := upower_frame w
    exact ⟨h1, h2, h3, h4, h5, (upower_preserves w).2.2.2.2.1⟩

/-- Witness for C10 at the concrete state `w0`: a music access for the new
sub-key 9 leaves the cached wayland handle, the entry of the other sub-key
3, and the tray slot untouched. -/
theorem claim_C10_witness :
    (World.music 9 w0).2.clients.wayland = w0.clients.wayland ∧
    (World.music 9 w0).2.clients.music.lookup 3 = w0.clients.music.lookup 3 ∧
    (World.music 9 w0).2.clients.music.lookup 3 = some 4 ∧
    (w0.wayland).2.clients.wayland = some 7 :=
  ⟨(claim_C10.2.2.2.1 9 w0).1,
   (claim_C10.2.2.2.1 9 w0).2.2.2.2.2.1 3 (by decide),
   (claim_C10.2.2.2.1 9 w0).2.2.2.2.2.2 3 4 (by decide),
   (claim_C10.1 w0).2.2.2.2.2 7 rfl⟩

/-! The capability-provider bindings (`ProvidesClient` / `register_client`,
lines 93-119): `provide` reaches the registry through
`self.ironbar.clients.borrow_mut()` and calls the bound accessor. -/

/-- The application object: `self.ironbar.clients` is the shared registry
cell; its `borrow_mut` state threading is explicit. -/
structure Ironbar where
  clients : World

/-- `WidgetContext` as consumer context; only its `ironbar` reference is
relevant to `provide`. -/
structure WidgetContext where
  ironbar : Ironbar

/-- The impl generated by `register_client!` for the wayland capability:
`fn provide(&self) -> Arc<T> { self.ironbar.clients.borrow_mut().wayland() }`. -/
def provideWayland (c : WidgetContext) : Nat × WidgetContext :=
  ((c.ironbar.clients.wayland).1, ⟨⟨(c.ironbar.clients.wayland).2⟩⟩)

/-- The impl generated by `register_client!` for the clipboard capability. -/
def provideClipboard (c : WidgetContext) : Nat × WidgetContext :=
  ((c.ironbar.clients.clipboard).1, ⟨⟨(c.ironbar.clients.clipboard).2⟩⟩)

/-- The impl generated by `register_client!` for the tray capability. -/
def provideTray (c : WidgetContext) : Nat × WidgetContext :=
  ((c.ironbar.clients.tray).1, ⟨⟨(c.ironbar.clients.tray).2⟩⟩)

/-- The impl generated by `register_client!` for the upower capability. -/
def provideUpower (c : WidgetContext) : Nat × WidgetContext :=
  ((c.ironbar.clients.upower).1, ⟨⟨(c.ironbar.clients.upower).2⟩⟩)

/-- Modelled from the spec: the binding for the multi-instance music kind,
with the sub-key baked into the specific binding; it routes to
`Clients::music` with that fixed sub-key. (The `register_client!` macro in
src covers only no-argument accessors; the music binding's glue is outside
src.) -/
def provideMusic (key : ClientType) (c : WidgetContext) : Nat × WidgetContext :=
  ((World.music key c.ironbar.clients).1, ⟨⟨(World.music key c.ironbar.clients).2⟩⟩)

/-- Claim C7: `provide` for a capability type returns exactly the handle of
the matching Clients accessor (routing conjuncts), and a repeated `provide`
for the same capability from the same consumer context returns a handle of
the same underlying identity and leaves the context unchanged (fixpoint
conjuncts); for the multi-instance music kind this holds per baked-in
sub-key. -/
theorem claim_C7 :
    (∀ c : WidgetContext,
      (provideWayland c).1 = (c.ironbar.clients.wayland).1 ∧
      provideWayland (provideWayland c).2 =
        ((provideWayland c).1, (provideWayland c).2)) ∧
    (∀ c : WidgetContext,
      (provideClipboard c).1 = (c.ironbar.clients.clipboard).1 ∧
      provideClipboard (provideClipboard c).2 =
        ((provideClipboard c).1, (provideClipboard c).2)) ∧
    (∀ c : WidgetContext,
      (provideTray c).1 = (c.ironbar.clients.tray).1 ∧
      provideTray (provideTray c).2 =
        ((provideTray c).1, (provideTray c).2)) ∧
    (∀ c : WidgetContext,
      (provideUpower c).1 = (c.ironbar.clients.upower).1 ∧
      provideUpower (provideUpower c).2 =
        ((provideUpower c).1, (provideUpower c).2)) ∧
    (∀ (key : ClientType) (c : WidgetContext),
      (provideMusic key c).1 = (World.music key c.ironbar.clients).1 ∧
      provideMusic key (provideMusic key c).2 =
        ((provideMusic key c).1, (provideMusic key c).2)) := by
  refine ⟨fun c => ⟨rfl, ?_⟩, fun c => ⟨rfl, ?_⟩, fun c => ⟨rfl, ?_⟩,
          fun c => ⟨rfl, ?_⟩, fun key c => ⟨rfl, ?_⟩⟩
  · simp [provideWayland, wayland_idem]
  · simp [provideClipboard, clipboard_idem]
  · simp [provideTray, tray_idem]
  · simp [provideUpower, upower_idem]
  · simp [provideMusic, music_idem]

/-- Claim C8: when construction of the workspaces kind fails (no compatible
compositor), the accessor returns no handle: the `expect` panic aborts the
flow, carrying a diagnostic that names the compositor subsystem and the
underlying reason; nothing is cached, the workspaces slot stays unset, and
a run hitting this call terminates with that message. -/
theorem claim_C8 (e : String) (env : Env)
    (henv : env.compositor = Except.error e)
    (w : World) (hs : w.clients.workspaces = none) :
    (w.workspaces env).1 = Except.error ("to be valid compositor: " ++ e) ∧
    (w.workspaces env).2.clients = w.clients ∧
    (w.workspaces env).2.clients.workspaces = none ∧
    (run env [Op.workspaces] w).2 = some ("to be valid compositor: " ++ e) := by
  have h1 : w.workspaces env =
      (Except.error ("to be valid compositor: " ++ e),
       { w with trace := w.trace ++ [(Kind.workspaces, none)] }) := by
    unfold World.workspaces
    rw [hs, henv]
  refine ⟨by rw [h1], by rw [h1], by rw [h1]; exact hs, ?_⟩
  show (run env [Op.workspaces] w).2 = _
  simp only [run, step]
  rw [h1]

/-- Witness for C8: a failing compositor discovery on a fresh registry. -/
theorem claim_C8_witness :
    (World.init.workspaces ⟨Except.error "no compatible compositor"⟩).1 =
      Except.error ("to be valid compositor: " ++ "no compatible compositor") ∧
    (World.init.workspaces ⟨Except.error "no compatible compositor"⟩).2.clients =
      World.init.clients ∧
    (World.init.workspaces
        ⟨Except.error "no compatible compositor"⟩).2.clients.workspaces = none ∧
    (run ⟨Except.error "no compatible compositor"⟩ [Op.workspaces] World.init).2 =
      some ("to be valid compositor: " ++ "no compatible compositor") :=
  claim_C8 "no compatible compositor" ⟨Except.error "no compatible compositor"⟩
    rfl World.init rfl

/-! Compile-time feature gating (`#[cfg(feature = ...)]` attributes on the
fields, lines 17-30, and on the accessors, lines 43, 52, 62, 70, 81). The
build features that occur in the source are workspaces, clipboard, music,
tray and upower; the wayland field (line 19), the wayland accessor
(line 37) and `pub mod wayland` (line 13) carry no cfg attribute. -/

/-- The feature flags appearing in `src/clients/mod.rs`. -/
structure Features where
  workspaces : Bool
  clipboard : Bool
  music : Bool
  tray : Bool
  upower : Bool

/-- Whether a kind's storage field exists in a build with features `f`,
read off the cfg attributes on the `Clients` fields. -/
def fieldPresent (f : Features) : Kind → Bool
  | Kind.wayland => true
  | Kind.workspaces => f.workspaces
  | Kind.clipboard => f.clipboard
  | Kind.music => f.music
  | Kind.tray => f.tray
  | Kind.upower => f.upower

/-- Whether a kind's accessor method exists in a build with features `f`,
read off the cfg attributes on the `impl Clients` methods. -/
def accessorPresent (f : Features) : Kind → Bool
  | Kind.wayland => true
  | Kind.workspaces => f.workspaces
  | Kind.clipboard => f.clipboard
  | Kind.music => f.music
  | Kind.tray => f.tray
  | Kind.upower => f.upower

/-- The build in which every feature of the source is disabled. -/
def featuresAllOff : Features :=
  ⟨false, false, false, false, false⟩

/-- Counterexample to C9 as stated: in the build with every feature
disabled, the display-server/wayland kind still contributes a storage
field and an accessor — the wayland kind is not gated by any feature, so
it is not the case that every kind (including wayland) is compiled in only
if its corresponding feature is enabled. -/
theorem claim_C9_counterexample :
    fieldPresent featuresAllOff Kind.wayland = true ∧
    accessorPresent featuresAllOff Kind.wayland = true :=
  ⟨rfl, rfl⟩

/-- Claim C9 (amended): every client kind except the display-server/wayland
kind contributes its storage field and accessor exactly when its build
feature is enabled; the wayland kind is unconditional — present in every
build. -/
theorem claim_C9 (f : Features) :
    fieldPresent f Kind.wayland = true ∧
    accessorPresent f Kind.wayland = true ∧
    fieldPresent f Kind.workspaces = f.workspaces ∧
    accessorPresent f Kind.workspaces = f.workspaces ∧
    fieldPresent f Kind.clipboard = f.clipboard ∧
    accessorPresent f Kind.clipboard = f.clipboard ∧
    fieldPresent f Kind.music = f.music ∧
    accessorPresent f Kind.music = f.music ∧
    fieldPresent f Kind.tray = f.tray ∧
    accessorPresent f Kind.tray = f.tray ∧
    fieldPresent f Kind.upower = f.upower ∧
    accessorPresent f Kind.upower = f.upower :=
  ⟨rfl, rfl, rfl, rfl, rfl, rfl, rfl, rfl, rfl, rfl, rfl, rfl⟩

/-! The multi-instance music kind: per-sub-key at-most-once construction
and identity of handles. -/

/-- Effect of one music access on an arbitrary key's map entry. -/
theorem music_lookup_after (q key : ClientType) (w : World) :
    (World.music q w).2.clients.music.lookup key =
      if key = q then some (World.music q w).1
      else w.clients.music.lookup key := by
  unfold World.music
  cases hs : w.clients.music.lookup q with
  | some h =>
    by_cases hq : key = q
    · subst hq; simp [hs]
    · simp [hq]
  | none =>
    by_cases hq : key = q
    · subst hq; simp [List.lookup]
    · have hb : (key == q) = false := by simp [hq]
      simp [List.lookup, hb, hq]

/-- Effect of one music access on an arbitrary key's constructor count. -/
theorem musicCtorCount_after (q key : ClientType) (w : World) :
    musicCtorCount key (World.music q w).2 =
      musicCtorCount key w +
        (if key = q ∧ w.clients.music.lookup q = none then 1 else 0) := by
  simp only [musicCtorCount]
  unfold World.music
  cases hs : w.clients.music.lookup q with
  | some h => simp [hs]
  | none =>
    by_cases hq : key = q
    · subst hq; simp [List.filter_append]
    · have hb : (some q == some key) = false := by simp [Ne.symm hq]
      simp [List.filter_append, hb, hq]

/-- Music constructor count over a call sequence: one new invocation for a
key exactly when the sequence queries it and it is not yet cached. -/
theorem musicRun_count (key : ClientType) :
    ∀ (ks : List ClientType) (w : World),
      musicCtorCount key (musicRun ks w).2 =
        musicCtorCount key w +
          (if key ∈ ks ∧ w.clients.music.lookup key = none then 1 else 0) := by
  intro ks
  induction ks with
  | nil => intro w; simp [musicRun]
  | cons q ks ih =>
    intro w
    have hafter := musicCtorCount_after q key w
    have hlook := music_lookup_after q key w
    have hihw := ih (World.music q w).2
    show musicCtorCount key (musicRun (q :: ks) w).2 = _
    simp only [musicRun]
    rw [hihw, hafter, hlook]
    by_cases hq : key = q
    · subst hq
      by_cases hl : w.clients.music.lookup key = none
      · simp [hl]
      · simp [hl]
    · have h1 : (if key = q then some (World.music q w).1
          else w.clients.music.lookup key) = w.clients.music.lookup key :=
        if_neg hq
      rw [h1]
      have h3 : (if key ∈ q :: ks ∧ w.clients.music.lookup key = none
            then (1 : Nat) else 0)
          = if key ∈ ks ∧ w.clients.music.lookup key = none then (1 : Nat) else 0 := by
        refine if_congr ?_ rfl rfl
        exact and_congr_left fun _ => by simp [List.mem_cons, hq]
      rw [h3]
      simp [hq]

theorem musicRun_length :
    ∀ (ks : List ClientType) (w : World),
      (musicRun ks w).1.length = ks.length := by
  intro ks
  induction ks with
  | nil => intro w; rfl
  | cons q ks ih => intro w; simp [musicRun, ih]

/-- A cached music entry survives any sequence of music accesses. -/
theorem musicRun_lookup_mono :
    ∀ (ks : List ClientType) (w : World) (key : ClientType) (h : Nat),
      w.clients.music.lookup key = some h →
      (musicRun ks w).2.clients.music.lookup key = some h := by
  intro ks
  induction ks with
  | nil => intro w key h hh; exact hh
  | cons q ks ih =>
    intro w key h hh
    exact ih (World.music q w).2 key h
      ((music_preserves q w).2.2.2.2.2 key h hh)

/-- A successful lookup is a membership in the association list. -/
theorem lookup_mem :
    ∀ (l : List (ClientType × Nat)) (key : ClientType) (h : Nat),
      l.lookup key = some h → (key, h) ∈ l := by
  intro l
  induction l with
  | nil => intro key h hl; simp [List.lookup] at hl
  | cons p l ih =>
    intro key h hl
    obtain ⟨k, v⟩ := p
    by_cases hk : key = k
    · subst hk
      simp [List.lookup] at hl
      simp [hl]
    · have hb : (key == k) = false := by simp [hk]
      simp [List.lookup, hb] at hl
      exact List.mem_cons_of_mem _ (ih key h hl)

/-- Identity invariant: every cached music handle is below the fresh-id
counter, and the map never assigns one handle to two keys. -/
def IdInv (w : World) : Prop :=
  (∀ p ∈ w.clients.music, p.2 < w.nextId) ∧
  (∀ p ∈ w.clients.music, ∀ p' ∈ w.clients.music, p.2 = p'.2 → p.1 = p'.1)

theorem IdInv_init : IdInv World.init := by
  constructor <;> intro p hp <;> simp [World.init, Clients.new] at hp

theorem music_IdInv (q : ClientType) (w : World) (hw : IdInv w) :
    IdInv (World.music q w).2 := by
  unfold World.music
  cases hs : w.clients.music.lookup q with
  | some h => exact hw
  | none =>
    constructor
    · intro p hp
      rcases List.mem_cons.1 hp with hp | hp
      · subst hp; simp
      · exact Nat.lt_trans (hw.1 p hp) (Nat.lt_succ_self _)
    · intro p hp p' hp' heq
      rcases List.mem_cons.1 hp with hp | hp <;>
        rcases List.mem_cons.1 hp' with hp' | hp'
      · rw [hp, hp']
      · subst hp
        have := hw.1 p' hp'
        simp at heq
        omega
      · subst hp'
        have := hw.1 p hp
        simp at heq
        omega
      · exact hw.2 p hp p' hp' heq

theorem musicRun_IdInv :
    ∀ (ks : List ClientType) (w : World), IdInv w → IdInv (musicRun ks w).2 := by
  intro ks
  induction ks with
  | nil => intro w hw; exact hw
  | cons q ks ih => intro w hw; exact ih (World.music q w).2 (music_IdInv q w hw)

/-- The handle returned at position `i` of a music call sequence is the
final map's entry for the key queried at position `i`. -/
theorem musicRun_get :
    ∀ (ks : List ClientType) (w : World) (i : Nat) (key : ClientType),
      ks[i]? = some key →
      ∃ h, (musicRun ks w).1[i]? = some h ∧
        (musicRun ks w).2.clients.music.lookup key = some h := by
  intro ks
  induction ks with
  | nil => intro w i key hk; simp at hk
  | cons q ks ih =>
    intro w i key hk
    cases i with
    | zero =>
      simp at hk
      subst hk
      refine ⟨(World.music q w).1, by simp [musicRun], ?_⟩
      exact musicRun_lookup_mono ks (World.music q w).2 q
        (World.music q w).1 (music_sets q w)
    | succ i =>
      simp at hk
      obtain ⟨h, h1, h2⟩ := ih (World.music q w).2 i key hk
      exact ⟨h, by simp [musicRun, h1], h2⟩

/-- Claim C2: over any single-threaded sequence of music accessor calls on
a fresh Clients value, the music constructor is invoked exactly once per
distinct sub-key occurring in the sequence (first conjunct: once for a
queried key, never for an unqueried one), the returned handle list is as
long as the call sequence (second conjunct), and two calls return handles
of identical underlying identity exactly when their sub-keys are equal
(third conjunct: equal keys share the handle, distinct keys never do). -/
theorem claim_C2 :
    (∀ (ks : List ClientType) (key : ClientType),
      musicCtorCount key (musicRun ks World.init).2 =
        if key ∈ ks then 1 else 0) ∧
    (∀ ks : List ClientType, (musicRun ks World.init).1.length = ks.length) ∧
    (∀ (ks : List ClientType) (i j : Nat),
      (musicRun ks World.init).1[i]? = (musicRun ks World.init).1[j]? ↔
        ks[i]? = ks[j]?) := by
  refine ⟨fun ks key => ?_, fun ks => musicRun_length ks World.init,
          fun ks i j => ?_⟩
  · rw [musicRun_count key ks World.init]
    simp [musicCtorCount, World.init, Clients.new, List.lookup]
  · have hlen := musicRun_length ks World.init
    rcases Nat.lt_or_ge i ks.length with hi | hi
    · rcases Nat.lt_or_ge j ks.length with hj | hj
      · have hki : ks[i]? = some (ks[i]) := List.getElem?_eq_getElem hi
        have hkj : ks[j]? = some (ks[j]) := List.getElem?_eq_getElem hj
        obtain ⟨a, ha1, ha2⟩ := musicRun_get ks World.init i (ks[i]) hki
        obtain ⟨b, hb1, hb2⟩ := musicRun_get ks World.init j (ks[j]) hkj
        have hinv := musicRun_IdInv ks World.init IdInv_init
        rw [ha1, hb1, hki, hkj]
        constructor
        · intro h
          injection h with hab
          subst hab
          have m1 := lookup_mem _ _ _ ha2
          have m2 := lookup_mem _ _ _ hb2
          have hk := hinv.2 _ m1 _ m2 rfl
          exact congrArg some hk
        · intro h
          injection h with hk
          rw [hk] at ha2
          rw [ha2] at hb2
          injection hb2 with hb2'
          rw [hb2']
      · have r2 : ks[j]? = none := List.getElem?_eq_none hj
        have r1 : (musicRun ks World.init).1[j]? = none :=
            List.getElem?_eq_none (by rw [hlen]; exact hj)
        have hki : ks[i]? = some (ks[i]) := List.getElem?_eq_getElem hi
        obtain ⟨a, ha1, _⟩ := musicRun_get ks World.init i (ks[i]) hki
        rw [r1, r2, ha1, hki]
        simp
    · have r1i : (musicRun ks World.init).1[i]? = none :=
        List.getElem?_eq_none (by rw [hlen]; exact hi)
      have r2i : ks[i]? = none := List.getElem?_eq_none hi
      rw [r1i, r2i]
      rcases Nat.lt_or_ge j ks.length with hj | hj
      · have hkj : ks[j]? = some (ks[j]) := List.getElem?_eq_getElem hj
        obtain ⟨b, hb1, _⟩ := musicRun_get ks World.init j (ks[j]) hkj
        rw [hb1, hkj]
        simp
      · have r1j : (musicRun ks World.init).1[j]? = none :=
          List.getElem?_eq_none (by rw [hlen]; exact hj)
        have r2j : ks[j]? = none := List.getElem?_eq_none hj
        rw [r1j, r2j]

end IronbarClients
